import Mathlib

/-!
Verification development for the NGGMRS repeater KML service
(`main.py`): a periodic fetch → build-KML → write-file loop plus an
HTTP serving layer.  The pure transformation core (`icon_href`,
`fmt_time`, `build_kml`) is embedded shallowly below; the effectful
update cycle (`update_kml`) is embedded with its effects made explicit:
the outcome of the network fetch, the ambient wall-clock value read by
`datetime.now`, and the stored output file all become parameters and
results.
-/

namespace NGGMRS

/-- A parsed JSON value, as produced by Python's `json.loads`: `null`
maps to Python `None`, and objects keep their key/value pairs. -/
inductive Json where
  | null : Json
  | bool : Bool → Json
  | num : Int → Json
  | str : String → Json
  | arr : List Json → Json
  | obj : List (String × Json) → Json

/-- Python truthiness (`bool(v)`) of a parsed JSON value: `None` and
`False` are falsy, numbers are truthy iff nonzero, strings and
collections are truthy iff nonempty. -/
def truthy : Json → Bool
  | .null => false
  | .bool b => b
  | .num n => n != 0
  | .str s => s != ""
  | .arr l => !l.isEmpty
  | .obj l => !l.isEmpty

/-- A single quote character, as used by Python `repr` for strings. -/
def pyQuote (s : String) : String :=
  String.singleton (Char.ofNat 39) ++ s ++ String.singleton (Char.ofNat 39)

mutual

/-- Python `repr` of a parsed JSON value (as used for elements inside
`str` of a list or dict). -/
def pyRepr : Json → String
  | .null => "None"
  | .bool true => "True"
  | .bool false => "False"
  | .num n => toString n
  | .str s => pyQuote s
  | .arr l => "[" ++ pyReprList l ++ "]"
  | .obj l => "\x7b" ++ pyReprFields l ++ "\x7d"

/-- Rendering by `repr` of the elements of a Python list, comma-separated. -/
def pyReprList : List Json → String
  | [] => ""
  | [x] => pyRepr x
  | x :: xs => pyRepr x ++ ", " ++ pyReprList xs

/-- Rendering by `repr` of the entries of a Python dict, comma-separated. -/
def pyReprFields : List (String × Json) → String
  | [] => ""
  | [(k, v)] => pyQuote k ++ ": " ++ pyRepr v
  | (k, v) :: xs => pyQuote k ++ ": " ++ pyRepr v ++ ", " ++ pyReprFields xs

end

/-- Python `str(v)` of a parsed JSON value, as interpolated by the
f-string `f"\x7blon\x7d,\x7blat\x7d,0"` on line 112 of `main.py`. -/
def pyStr : Json → String
  | .str s => s
  | v => pyRepr v

/-- Python `==` between a parsed JSON value and a string literal
(`keyed == "1"`): true only when the value is exactly that string;
numbers, booleans, `None` and collections never equal a string. -/
def jsonEqStr (v : Json) (s : String) : Bool :=
  match v with
  | .str t => t == s
  | _ => false

/-- The numeric reading of a JSON value accepted by
`datetime.fromtimestamp`: Python `bool` is an `int` subtype, other
non-numbers raise `TypeError` (modelled as `none`).  JSON numbers are
modelled at integer precision. -/
def timeVal : Json → Option Int
  | .num n => some n
  | .bool b => some (if b then 1 else 0)
  | _ => none

/-- One element of the fetched JSON array: a Python dict with string
keys, as iterated by `build_kml`.  Keys are unique in a parsed JSON
object; lookup returns the first binding. -/
abbrev NodeObj := List (String × Json)

/-- Raw key lookup in a node dict: `none` means the key is absent. -/
def getOpt : NodeObj → String → Option Json
  | [], _ => none
  | (k, v) :: rest, key => if k == key then some v else getOpt rest key

/-- Python `node.get(key)`: the stored value, or `None` when the key is
absent.  (A stored JSON `null` is also Python `None`.) -/
def pyGet (node : NodeObj) (key : String) : Json :=
  (getOpt node key).getD Json.null

/-- Python `node.get(key, default)`: the stored value (even when it is
`null`), or `default` when the key is absent. -/
def pyGetD (node : NodeObj) (key : String) (default : Json) : Json :=
  (getOpt node key).getD default

/-- The constant `UPDATE_INTERVAL = 5 * 60` (seconds), line 16 of `main.py`. -/
def UPDATE_INTERVAL : Nat := 5 * 60

/-- Yellow paddle icon returned for a keyed (transmitting) node. -/
def yellowIcon : String := "https://maps.google.com/mapfiles/kml/paddle/ylw-blank.png"

/-- Red paddle icon returned for a stale node. -/
def redIcon : String := "https://maps.google.com/mapfiles/kml/paddle/X.png"

/-- Green paddle icon returned for a normal node. -/
def greenIcon : String := "https://maps.google.com/mapfiles/kml/paddle/grn-blank.png"

/-- The function `icon_href(keyed, last_report)` from `main.py` lines 41-54.  The
Python code reads the wall clock internally (`datetime.now`); that read
is made explicit as the `now` parameter (epoch seconds).  `age` is
computed before the `keyed` test, so a non-numeric `last_report` raises
`TypeError` (modelled as `none`) even for a keyed node.  The staleness
test compares the age against `timedelta(minutes=5)`, i.e. 300
seconds, strictly. -/
def icon_href (now : Int) (keyed : Json) (last_report : Json) : Option String :=
  match timeVal last_report with
  | none => none
  | some t =>
    if jsonEqStr keyed "1" then some yellowIcon
    else if now - t > 5 * 60 then some redIcon
    else some greenIcon

/-- Proleptic-Gregorian civil date from a day count relative to
1970-01-01 (the standard era-based conversion used by UTC date
libraries): returns `(year, month, day)`. -/
def civilFromDays (z0 : Int) : Int × Nat × Nat :=
  let z := z0 + 719468
  let era := z.fdiv 146097
  let doe := (z - era * 146097).toNat
  let yoe := (doe - doe / 1460 + doe / 36524 - doe / 146096) / 365
  let y : Int := (yoe : Int) + era * 400
  let doy := doe - (365 * yoe + yoe / 4 - yoe / 100)
  let mp := (5 * doy + 2) / 153
  let d := doy - (153 * mp + 2) / 5 + 1
  let m := if mp < 10 then mp + 3 else mp - 9
  (if m ≤ 2 then y + 1 else y, m, d)

/-- Zero-pad a number to two digits, as `strftime` does for `%m`, `%d`,
`%H`, `%M`, `%S`. -/
def pad2 (n : Nat) : String :=
  if n < 10 then "0" ++ toString n else toString n

/-- The function `fmt_time(ts)` from `main.py` lines 33-35: the UTC timestamp
rendered as `"%Y-%m-%d %H:%M:%S UTC"`. -/
def fmt_time (ts : Int) : String :=
  let days := ts.fdiv 86400
  let rem := (ts - days * 86400).toNat
  let c := civilFromDays days
  toString c.1 ++ "-" ++ pad2 c.2.1 ++ "-" ++ pad2 c.2.2 ++ " " ++
    pad2 (rem / 3600) ++ ":" ++ pad2 (rem % 3600 / 60) ++ ":" ++ pad2 (rem % 60) ++ " UTC"

/-- One KML `Placemark` element as assembled in the loop body of
`build_kml` (`main.py` lines 89-112): element text in document order.
`name` and `description` hold the raw JSON values that Python assigns
to `.text`. -/
structure Placemark where
  name : Json
  description : Json
  styleUrl : String
  iconScale : String
  iconHref : String
  lastReport : String
  keyedLabel : String
  coordinates : String

/-- The loop body of `build_kml` for one non-skipped node (`main.py`
lines 89-112).  `none` models the `TypeError` raised inside
`icon_href` / `fmt_time` when the node's `time` value is not a number
(`icon_href` runs first, so its failure decides the outcome). -/
def mkPlacemark (now : Int) (node : NodeObj) : Option Placemark :=
  match icon_href now (pyGetD node "keyed" (Json.str "0")) (pyGetD node "time" (Json.num 0)),
        timeVal (pyGetD node "time" (Json.num 0)) with
  | some href, some t =>
    some { name := pyGetD node "name" (Json.str "Unnamed")
           description := pyGetD node "description" (Json.str "")
           styleUrl := "#repeaterStyle"
           iconScale := "1.2"
           iconHref := href
           lastReport := fmt_time t
           keyedLabel := if jsonEqStr (pyGet node "keyed") "1" then "Yes" else "No"
           coordinates := pyStr (pyGet node "longitude") ++ "," ++ pyStr (pyGet node "latitude") ++ ",0" }
  | _, _ => none

/-- Python `v is None` on a parsed JSON value (the coordinate guard on
line 86 of `main.py`). -/
def isNull : Json → Bool
  | .null => true
  | _ => false

/-- The node filter of `build_kml` (`main.py` lines 80-87): a node gets
a placemark iff its `hidden` value is not truthy and both `latitude`
and `longitude` are present and non-null (`node.get` yields Python
`None` in either case). -/
def qualifies (node : NodeObj) : Bool :=
  !truthy (pyGet node "hidden") &&
    !isNull (pyGet node "latitude") && !isNull (pyGet node "longitude")

/-- The `for node in nodes` loop of `build_kml` (`main.py` lines
80-112): skipped nodes contribute nothing, each remaining node appends
one placemark in input order, and a raised `TypeError` aborts the whole
build (`none`). -/
def buildPlacemarks (now : Int) : List NodeObj → Option (List Placemark)
  | [] => some []
  | node :: rest =>
    if truthy (pyGet node "hidden") then buildPlacemarks now rest
    else if isNull (pyGet node "latitude") || isNull (pyGet node "longitude") then
      buildPlacemarks now rest
    else
      match mkPlacemark now node, buildPlacemarks now rest with
      | some pm, some pms => some (pm :: pms)
      | _, _ => none

/-- The KML document returned by `build_kml` (`main.py` lines 60-114):
the document name, the one shared balloon style emitted before the
loop, and the placemark sequence. -/
structure KmlDoc where
  docName : String
  styleId : String
  balloonBgColor : String
  balloonTextColor : String
  balloonText : String
  placemarks : List Placemark

/-- The function `build_kml(nodes)` from `main.py`.  The ambient wall clock read by
each internal `icon_href` call is made explicit as `now`; `none` models
the build raising (caught by the caller `update_kml`). -/
def build_kml (now : Int) (nodes : List NodeObj) : Option KmlDoc :=
  match buildPlacemarks now nodes with
  | none => none
  | some pms =>
    some { docName := "NGGMRS Repeater Status"
           styleId := "repeaterStyle"
           balloonBgColor := "ffffffff"
           balloonTextColor := "ff000000"
           balloonText := "\n        <![CDATA[\n        <b>$[name]</b><br/>\n        Frequency: $[description]<br/>\n        Last report: $[lastReport]<br/>\n        Keyed: $[keyed]<br/>\n        ]]>\n    "
           placemarks := pms }

/-- The function `update_kml()` from `main.py` lines 120-135, with its effects made
explicit: `fetched` is the outcome of `fetch_nodes()` (`Except.error`
for a network/parse exception), `now` the ambient clock during the
build, and `stored` the current content of the output file (`none` if
it has never been written).  The `try/except` catches any failure of
fetch or build, leaving the file untouched; in every case the function
returns normally and arms the next timer with delay `UPDATE_INTERVAL`
(second component). -/
def update_kml (fetched : Except String (List NodeObj)) (now : Int)
    (stored : Option KmlDoc) : Option KmlDoc × Nat :=
  match fetched with
  | .error _ => (stored, UPDATE_INTERVAL)
  | .ok nodes =>
    match build_kml now nodes with
    | none => (stored, UPDATE_INTERVAL)
    | some doc => (some doc, UPDATE_INTERVAL)

/-- The stored output file before cycle `k`, for a run whose fetch
outcomes are `f` and ambient clocks are `nw`: no file exists before
cycle 0, and each cycle transforms it through `update_kml`. -/
def storedAt (f : Nat → Except String (List NodeObj)) (nw : Nat → Int) :
    Nat → Option KmlDoc
  | 0 => none
  | k + 1 => (update_kml (f k) (nw k) (storedAt f nw k)).1

/-- Start instant of cycle `k`: the first `update_kml` runs immediately
at process start `t0` (`main.py` line 164); every later cycle starts
when the `threading.Timer` armed at the end of the previous cycle
fires, i.e. the previous cycle's completion instant (its start plus its
duration `d`) plus the armed delay. -/
def cycleStart (t0 : Nat) (d : Nat → Nat) (f : Nat → Except String (List NodeObj))
    (nw : Nat → Int) : Nat → Nat
  | 0 => t0
  | k + 1 => cycleStart t0 d f nw k + d k + (update_kml (f k) (nw k) (storedAt f nw k)).2

/-- Completion instant of cycle `k`: its start plus its duration. -/
def cycleEnd (t0 : Nat) (d : Nat → Nat) (f : Nat → Except String (List NodeObj))
    (nw : Nat → Int) (k : Nat) : Nat :=
  cycleStart t0 d f nw k + d k

/-- A node's `time` value (after the `node.get("time", 0)` default) is
numeric, so neither `icon_href` nor `fmt_time` raises on it. -/
def wellTimed (n : NodeObj) : Bool :=
  (timeVal (pyGetD n "time" (Json.num 0))).isSome

/-- A JSON value that is a boolean or null (no value), the type the
spec's `NodeRecord` data model gives the `hidden` field. -/
def boolLike : Json → Bool
  | .null => true
  | .bool _ => true
  | _ => false

/-- A node's `hidden` value is a JSON boolean or absent/null, as the
spec's `NodeRecord` data model types it. -/
def hiddenBoolLike (n : NodeObj) : Bool :=
  boolLike (pyGet n "hidden")

/-- Python `v == True` restricted to what the spec compares: the value
is the JSON boolean `true`. -/
def isBoolTrue : Json → Bool
  | .bool true => true
  | _ => false

/-- Modelled from the spec for comparison with `qualifies`: the spec's
counting predicate for claim C2, "records whose `hidden` field is not
`true` and whose latitude and longitude are both present" (a JSON
`null` coordinate carries no value, hence is not present). -/
def specQualifies (node : NodeObj) : Bool :=
  !isBoolTrue (pyGet node "hidden") &&
    !isNull (pyGet node "latitude") && !isNull (pyGet node "longitude")

example : fmt_time 0 = "1970-01-01 00:00:00 UTC" := by decide
example : fmt_time 1700000000 = "2023-11-14 22:13:20 UTC" := by decide
example : icon_href 1000 (Json.str "1") (Json.num 0) = some yellowIcon := by decide
example : icon_href 1000 (Json.str "0") (Json.num 0) = some redIcon := by decide
example : icon_href 200 (Json.str "0") (Json.num 0) = some greenIcon := by decide
example : icon_href 301 (Json.str "0") (Json.num 0) = some redIcon := by decide
example : icon_href 300 (Json.str "0") (Json.num 0) = some greenIcon := by decide

example :
    (build_kml 1000 [[("name", Json.str "R1"), ("latitude", Json.num 40),
      ("longitude", Json.num (-105)), ("keyed", Json.str "1"),
      ("time", Json.num 1000)]]).map (fun d => d.placemarks.map fun p =>
        (p.iconHref, p.keyedLabel, p.coordinates)) =
    some [(yellowIcon, "Yes", "-105,40,0")] := by decide

example :
    (build_kml 1000 [[("name", Json.str "R3"), ("hidden", Json.bool true),
      ("latitude", Json.num 1), ("longitude", Json.num 1)]]).map
      (fun d => d.placemarks.length) = some 0 := by decide

-- «hidden: "false"» is truthy in Python, so the node is excluded.
example :
    (build_kml 1000 [[("hidden", Json.str "false"), ("latitude", Json.num 1),
      ("longitude", Json.num 1)]]).map (fun d => d.placemarks.length) = some 0 := by
  decide

/-! ## Shared lemmas about the builder -/

/-- A successful `build_kml` loop produces exactly the placemarks of the
qualifying nodes, in input order. -/
theorem bp_filterMap (now : Int) (nodes : List NodeObj) :
    ∀ pms, buildPlacemarks now nodes = some pms →
      pms = nodes.filterMap fun n => if qualifies n then mkPlacemark now n else none := by
  induction nodes with
  | nil =>
    intro pms h
    simp only [buildPlacemarks, Option.some.injEq] at h
    simp [← h]
  | cons node rest ih =>
    intro pms h
    rw [buildPlacemarks] at h
    rcases hh : truthy (pyGet node "hidden") with _ | _
    · rw [hh] at h
      simp only [Bool.false_eq_true, if_false] at h
      rcases hlat : isNull (pyGet node "latitude") with _ | _ <;>
        rcases hlon : isNull (pyGet node "longitude") with _ | _ <;>
          rw [hlat, hlon] at h <;> simp only [Bool.or_self, Bool.or_true, Bool.true_or,
            Bool.false_eq_true, if_false, if_true] at h
      · rcases hmk : mkPlacemark now node with _ | pm <;> rw [hmk] at h
        · cases h
        · rcases hrest : buildPlacemarks now rest with _ | pms' <;> rw [hrest] at h
          · cases h
          · cases h
            simp [List.filterMap_cons, qualifies, hh, hlat, hlon, hmk, ih pms' hrest]
      · simp [List.filterMap_cons, qualifies, hh, hlat, hlon, ih pms h]
      · simp [List.filterMap_cons, qualifies, hh, hlat, hlon, ih pms h]
      · simp [List.filterMap_cons, qualifies, hh, hlat, hlon, ih pms h]
    · rw [hh] at h
      simp only [if_true] at h
      simp [List.filterMap_cons, qualifies, hh, ih pms h]

/-- Unfolding of `icon_href` on a numeric timestamp. -/
theorem icon_href_some (now : Int) (k lr : Json) (t : Int) (h : timeVal lr = some t) :
    icon_href now k lr =
      if jsonEqStr k "1" then some yellowIcon
      else if now - t > 5 * 60 then some redIcon
      else some greenIcon := by
  unfold icon_href
  rw [h]

/-- The function `icon_href` returns an icon whenever its timestamp argument is
numeric. -/
theorem icon_href_total (now : Int) (k lr : Json) (t : Int) (h : timeVal lr = some t) :
    ∃ href, icon_href now k lr = some href := by
  rw [icon_href_some now k lr t h]
  split_ifs <;> exact ⟨_, rfl⟩

/-- A node whose `time` value is numeric yields a placemark. -/
theorem mkPlacemark_total (now : Int) (n : NodeObj) (h : wellTimed n = true) :
    ∃ pm, mkPlacemark now n = some pm := by
  unfold wellTimed at h
  rcases ho : timeVal (pyGetD n "time" (Json.num 0)) with _ | t
  · rw [ho] at h; simp at h
  · obtain ⟨href, hhref⟩ := icon_href_total now (pyGetD n "keyed" (Json.str "0")) _ t ho
    unfold mkPlacemark
    rw [hhref, ho]
    exact ⟨_, rfl⟩

/-- The loop cannot raise when every node's `time` value is numeric. -/
theorem bp_total (now : Int) (nodes : List NodeObj)
    (hw : ∀ n ∈ nodes, wellTimed n = true) :
    ∃ pms, buildPlacemarks now nodes = some pms := by
  induction nodes with
  | nil => exact ⟨[], rfl⟩
  | cons node rest ih =>
    obtain ⟨pms, hpms⟩ := ih fun n hn => hw n (List.mem_cons_of_mem _ hn)
    rw [buildPlacemarks]
    rcases hh : truthy (pyGet node "hidden") with _ | _
    · simp only [Bool.false_eq_true, if_false]
      rcases hlat : isNull (pyGet node "latitude") with _ | _ <;>
        rcases hlon : isNull (pyGet node "longitude") with _ | _ <;>
          simp only [Bool.or_self, Bool.or_true, Bool.true_or, Bool.false_eq_true,
            if_false, if_true]
      · obtain ⟨pm, hpm⟩ := mkPlacemark_total now node (hw node (List.mem_cons_self _ _))
        rw [hpm, hpms]
        exact ⟨_, rfl⟩
      · exact ⟨pms, hpms⟩
      · exact ⟨pms, hpms⟩
      · exact ⟨pms, hpms⟩
    · simp only [if_true]
      exact ⟨pms, hpms⟩

/-- Inversion of the loop body: a produced placemark records exactly
the field extractions and defaults of `main.py` lines 89-112. -/
theorem mkPlacemark_inv (now : Int) (n : NodeObj) (pm : Placemark)
    (h : mkPlacemark now n = some pm) :
    ∃ t href, timeVal (pyGetD n "time" (Json.num 0)) = some t ∧
      icon_href now (pyGetD n "keyed" (Json.str "0")) (pyGetD n "time" (Json.num 0)) = some href ∧
      pm = { name := pyGetD n "name" (Json.str "Unnamed")
             description := pyGetD n "description" (Json.str "")
             styleUrl := "#repeaterStyle"
             iconScale := "1.2"
             iconHref := href
             lastReport := fmt_time t
             keyedLabel := if jsonEqStr (pyGet n "keyed") "1" then "Yes" else "No"
             coordinates := pyStr (pyGet n "longitude") ++ "," ++ pyStr (pyGet n "latitude") ++ ",0" } := by
  unfold mkPlacemark at h
  rcases hh : icon_href now (pyGetD n "keyed" (Json.str "0")) (pyGetD n "time" (Json.num 0))
    with _ | href <;> rw [hh] at h
  · cases h
  · rcases ht : timeVal (pyGetD n "time" (Json.num 0)) with _ | t <;> rw [ht] at h
    · cases h
    · cases h
      exact ⟨t, href, rfl, rfl, rfl⟩

/-- A successful loop yields one placemark per qualifying node. -/
theorem bp_length (now : Int) (nodes : List NodeObj) :
    ∀ pms, buildPlacemarks now nodes = some pms →
      pms.length = (nodes.filter fun n => qualifies n).length := by
  induction nodes with
  | nil =>
    intro pms h
    simp only [buildPlacemarks, Option.some.injEq] at h
    simp [← h]
  | cons node rest ih =>
    intro pms h
    rw [buildPlacemarks] at h
    rcases hh : truthy (pyGet node "hidden") with _ | _
    · rw [hh] at h
      simp only [Bool.false_eq_true, if_false] at h
      rcases hlat : isNull (pyGet node "latitude") with _ | _ <;>
        rcases hlon : isNull (pyGet node "longitude") with _ | _ <;>
          rw [hlat, hlon] at h <;> simp only [Bool.or_self, Bool.or_true, Bool.true_or,
            Bool.false_eq_true, if_false, if_true] at h
      · rcases hmk : mkPlacemark now node with _ | pm <;> rw [hmk] at h
        · cases h
        · rcases hrest : buildPlacemarks now rest with _ | pms' <;> rw [hrest] at h
          · cases h
          · cases h
            simp [List.filter_cons, qualifies, hh, hlat, hlon, ih pms' hrest]
      · simp [List.filter_cons, qualifies, hh, hlat, hlon, ih pms h]
      · simp [List.filter_cons, qualifies, hh, hlat, hlon, ih pms h]
      · simp [List.filter_cons, qualifies, hh, hlat, hlon, ih pms h]
    · rw [hh] at h
      simp only [if_true] at h
      simp [List.filter_cons, qualifies, hh, ih pms h]

/-- The armed timer delay is `UPDATE_INTERVAL`, whatever the cycle's
outcome: the `threading.Timer` line sits outside the `try/except`. -/
theorem update_snd (fetched : Except String (List NodeObj)) (now : Int)
    (stored : Option KmlDoc) : (update_kml fetched now stored).2 = UPDATE_INTERVAL := by
  rcases fetched with e | nodes
  · rfl
  · rcases hb : build_kml now nodes with _ | doc <;> simp [update_kml, hb]

/-- Each cycle starts exactly `UPDATE_INTERVAL` after the previous
cycle's completion. -/
theorem cycleStart_succ (t0 : Nat) (d : Nat → Nat) (f : Nat → Except String (List NodeObj))
    (nw : Nat → Int) (k : Nat) :
    cycleStart t0 d f nw (k + 1) = cycleEnd t0 d f nw k + UPDATE_INTERVAL := by
  rw [cycleStart, cycleEnd, update_snd]

/-- Cycle start instants are monotone in the cycle index. -/
theorem cycleStart_mono (t0 : Nat) (d : Nat → Nat) (f : Nat → Except String (List NodeObj))
    (nw : Nat → Int) : ∀ j k, j ≤ k → cycleStart t0 d f nw j ≤ cycleStart t0 d f nw k := by
  intro j k hjk
  induction k with
  | zero => cases Nat.le_zero.mp hjk; rfl
  | succ k ih =>
    rcases Nat.lt_or_ge j (k + 1) with hlt | hge
    · calc cycleStart t0 d f nw j ≤ cycleStart t0 d f nw k := ih (Nat.lt_succ_iff.mp hlt)
        _ ≤ cycleStart t0 d f nw (k + 1) := by
            rw [cycleStart_succ, cycleEnd]; omega
    · have : j = k + 1 := Nat.le_antisymm hjk hge
      rw [this]

/-- For a boolean-or-null value, Python truthiness agrees with
comparison against the boolean `true`. -/
theorem truthy_eq_isBoolTrue (v : Json) (h : boolLike v = true) :
    truthy v = isBoolTrue v := by
  rcases v with _ | b | _ | _ | _ | _ <;> first
    | rfl
    | (cases b <;> rfl)
    | exact Bool.noConfusion h

/-- Python `v == "s"` holds exactly for the string value `s`. -/
theorem jsonEqStr_iff (v : Json) (s : String) : jsonEqStr v s = true ↔ v = Json.str s := by
  rcases v with _ | b | n | t | l | l <;> simp [jsonEqStr]

/-! ## Claim theorems -/

/-- C1: the status/icon decision follows the spec's priority order:
`keyed == "1"` yields the Active (yellow) marker regardless of the
last-report timestamp; otherwise an age over 5 minutes yields the Stale
(red) marker; otherwise the Normal (green) marker. -/
theorem icon_decision_priority (now t : Int) (keyed : Json) :
    (keyed = Json.str "1" → icon_href now keyed (Json.num t) = some yellowIcon) ∧
    (keyed ≠ Json.str "1" → now - t > 5 * 60 → icon_href now keyed (Json.num t) = some redIcon) ∧
    (keyed ≠ Json.str "1" → ¬(now - t > 5 * 60) →
      icon_href now keyed (Json.num t) = some greenIcon) := by
  rw [icon_href_some now keyed (Json.num t) t rfl]
  refine ⟨fun h1 => ?_, fun h1 h2 => ?_, fun h1 h2 => ?_⟩
  · rw [if_pos]
    exact (jsonEqStr_iff keyed "1").mpr h1
  · rw [if_neg, if_pos h2]
    simp [jsonEqStr_iff, h1]
  · rw [if_neg, if_neg h2]
    simp [jsonEqStr_iff, h1]

/-- Witness for C1 at concrete inputs: keyed wins over staleness, a
70-minute-old report is stale, a 100-second-old report is normal. -/
theorem icon_decision_priority_w :
    icon_href 10000 (Json.str "1") (Json.num 0) = some yellowIcon ∧
    icon_href 10000 (Json.str "0") (Json.num 0) = some redIcon ∧
    icon_href 100 (Json.str "0") (Json.num 0) = some greenIcon :=
  ⟨(icon_decision_priority 10000 0 (Json.str "1")).1 rfl,
   (icon_decision_priority 10000 0 (Json.str "0")).2.1 (by simp) (by norm_num),
   (icon_decision_priority 100 0 (Json.str "0")).2.2 (by simp) (by norm_num)⟩

/-- C10: only the exact string `"1"` counts as keyed: it yields the
Active icon, any other value (integer `1`, `"true"`, ...) falls through
to the staleness test, and the extended-data keyed flag reads `"Yes"`
exactly when the raw `keyed` value is the string `"1"`. -/
theorem keyed_exact_string (now t : Int) (k : Json) (node : NodeObj) (pm : Placemark) :
    (k = Json.str "1" → icon_href now k (Json.num t) = some yellowIcon) ∧
    (k ≠ Json.str "1" → icon_href now k (Json.num t) =
      some (if now - t > 5 * 60 then redIcon else greenIcon)) ∧
    (mkPlacemark now node = some pm →
      (pm.keyedLabel = "Yes" ↔ pyGet node "keyed" = Json.str "1")) := by
  refine ⟨fun h1 => ?_, fun h1 => ?_, fun h => ?_⟩
  · rw [icon_href_some now k (Json.num t) t rfl, if_pos ((jsonEqStr_iff k "1").mpr h1)]
  · rw [icon_href_some now k (Json.num t) t rfl, if_neg]
    · split <;> rfl
    · simp [jsonEqStr_iff, h1]
  · obtain ⟨t', href, ht, hhref, hpm⟩ := mkPlacemark_inv now node pm h
    subst hpm
    show (if jsonEqStr (pyGet node "keyed") "1" then "Yes" else "No") = "Yes" ↔ _
    by_cases hk : pyGet node "keyed" = Json.str "1"
    · rw [if_pos ((jsonEqStr_iff _ _).mpr hk)]
      simp [hk]
    · rw [if_neg]
      · simp [hk]
      · simp [jsonEqStr_iff, hk]

/-- A throwaway placemark used to instantiate `Option.getD` in
witnesses. -/
def pmJunk : Placemark := ⟨Json.null, Json.null, "", "", "", "", "", ""⟩

/-- Witness node for C10: `keyed` holds the integer `1`, not the
string `"1"`. -/
def nodeW10 : NodeObj :=
  [("latitude", Json.num 1), ("longitude", Json.num 1),
   ("keyed", Json.num 1), ("time", Json.num 1000)]

/-- The placemark built from `nodeW10` at clock 1000. -/
def pmW10 : Placemark := (mkPlacemark 1000 nodeW10).getD pmJunk

/-- Witness for C10: the integer `1` is not keyed (green at a fresh
report), the string `"1"` is keyed, and the node storing `keyed = 1`
(number) gets the label `"No"`. -/
theorem keyed_exact_string_w :
    icon_href 1000 (Json.str "1") (Json.num 1000) = some yellowIcon ∧
    icon_href 1000 (Json.num 1) (Json.num 1000) =
      some (if (1000 : Int) - 1000 > 5 * 60 then redIcon else greenIcon) ∧
    (if (1000 : Int) - 1000 > 5 * 60 then redIcon else greenIcon) = greenIcon ∧
    (pmW10.keyedLabel = "Yes" ↔ pyGet nodeW10 "keyed" = Json.str "1") ∧
    pmW10.keyedLabel = "No" :=
  ⟨(keyed_exact_string 1000 1000 (Json.str "1") [] pmJunk).1 rfl,
   (keyed_exact_string 1000 1000 (Json.num 1) [] pmJunk).2.1 (fun h => Json.noConfusion h),
   by norm_num,
   (keyed_exact_string 1000 1000 (Json.num 1) nodeW10 pmW10).2.2 rfl,
   by decide⟩

/-- A visible node whose last report is at epoch second 900, used to
exhibit the clock dependence of the build. -/
def nodeC3 : NodeObj :=
  [("latitude", Json.num 40), ("longitude", Json.num (-105)), ("time", Json.num 900)]

/-- C3 counterexample: `build_kml` is NOT deterministic in the record
sequence alone, because `icon_href` reads the wall clock internally
(`datetime.now()`, `main.py` line 43) instead of taking it as an
argument: the same single-record input built at ambient clock 1000
(report 100 s old, green icon) and at ambient clock 2000 (report
1100 s old, red icon) yields different documents. -/
theorem build_clock_dependence : build_kml 2000 [nodeC3] ≠ build_kml 1000 [nodeC3] := by
  intro h
  have h2 := congrArg (Option.map fun doc => doc.placemarks.map fun pm => pm.iconHref) h
  exact absurd h2 (by decide)

/-- C3 amended: the clock is read internally, so determinism holds only
relative to the ambient clock value: two builds with the same record
sequence and the same ambient clock value (here made explicit as the
`now` parameter of the embedding) produce identical documents. -/
theorem build_deterministic_given_clock (now1 now2 : Int) (nodes1 nodes2 : List NodeObj)
    (h1 : now1 = now2) (h2 : nodes1 = nodes2) :
    build_kml now1 nodes1 = build_kml now2 nodes2 := by
  rw [h1, h2]

/-- Witness for the amended C3 at a concrete input. -/
theorem build_deterministic_given_clock_w :
    build_kml 1000 [nodeC3] = build_kml 1000 [nodeC3] :=
  build_deterministic_given_clock 1000 1000 [nodeC3] [nodeC3] rfl rfl

/-- C4: when the fetch raises (`Except.error`) or the build raises
(`build_kml ... = none`), the `try/except` of `update_kml` catches the
exception, the output file keeps its prior content (`none` included, if
no cycle ever succeeded), and the cycle returns normally. -/
theorem failed_cycle_keeps_stored (e : String) (now : Int) (stored : Option KmlDoc)
    (nodes : List NodeObj) :
    (update_kml (Except.error e) now stored).1 = stored ∧
    (build_kml now nodes = none → (update_kml (Except.ok nodes) now stored).1 = stored) := by
  refine ⟨rfl, fun hb => ?_⟩
  simp [update_kml, hb]

/-- Witness node list for C4 whose build raises: the node qualifies for
a placemark but its `time` value is a string, so `icon_href` raises
`TypeError`. -/
def nodesC4 : List NodeObj :=
  [[("latitude", Json.num 1), ("longitude", Json.num 1), ("time", Json.str "never")]]

/-- Witness for C4: a failed fetch and a failed build both leave the
(absent) stored document untouched. -/
theorem failed_cycle_keeps_stored_w :
    (update_kml (Except.error "boom") 0 none).1 = none ∧
    (update_kml (Except.ok nodesC4) 0 none).1 = none :=
  ⟨(failed_cycle_keeps_stored "boom" 0 none nodesC4).1,
   (failed_cycle_keeps_stored "boom" 0 none nodesC4).2 rfl⟩

/-- C5: the next cycle is armed a fixed `UPDATE_INTERVAL = 300` seconds
after completion of the current one (the `threading.Timer` call sits
after the `try/except`, so success and failure alike), each start is
the previous completion plus the interval — measured from completion,
not from start — and consequently the cycle intervals are disjoint: at
most one fetch/build cycle is in flight at any instant. -/
theorem schedule_fixed_interval (t0 : Nat) (d : Nat → Nat)
    (f : Nat → Except String (List NodeObj)) (nw : Nat → Int)
    (fetched : Except String (List NodeObj)) (now : Int) (stored : Option KmlDoc)
    (j k : Nat) :
    UPDATE_INTERVAL = 300 ∧
    (update_kml fetched now stored).2 = UPDATE_INTERVAL ∧
    cycleStart t0 d f nw (k + 1) = cycleEnd t0 d f nw k + UPDATE_INTERVAL ∧
    (j < k → cycleEnd t0 d f nw j < cycleStart t0 d f nw k) := by
  refine ⟨rfl, update_snd fetched now stored, cycleStart_succ t0 d f nw k, fun hjk => ?_⟩
  have h1 : cycleEnd t0 d f nw j < cycleStart t0 d f nw (j + 1) := by
    rw [cycleStart_succ]
    have : 0 < UPDATE_INTERVAL := by decide
    omega
  exact lt_of_lt_of_le h1 (cycleStart_mono t0 d f nw (j + 1) k hjk)

/-- Witness for C5 on a concrete failing run: start at 0, every cycle
takes 7 s and its fetch fails; cycle 1 starts at 307, cycle 2 at 614,
and cycle 0 (ending at 7) is over before cycle 2 starts. -/
theorem schedule_fixed_interval_w :
    UPDATE_INTERVAL = 300 ∧
    (update_kml (Except.error "x") 0 none).2 = UPDATE_INTERVAL ∧
    cycleStart 0 (fun _ => 7) (fun _ => Except.error "x") (fun _ => 0) (1 + 1) =
      cycleEnd 0 (fun _ => 7) (fun _ => Except.error "x") (fun _ => 0) 1 + UPDATE_INTERVAL ∧
    cycleEnd 0 (fun _ => 7) (fun _ => Except.error "x") (fun _ => 0) 0 <
      cycleStart 0 (fun _ => 7) (fun _ => Except.error "x") (fun _ => 0) 2 := by
  have h1 := schedule_fixed_interval 0 (fun _ => 7) (fun _ => Except.error "x") (fun _ => 0)
    (Except.error "x") 0 none 0 1
  have h2 := schedule_fixed_interval 0 (fun _ => 7) (fun _ => Except.error "x") (fun _ => 0)
    (Except.error "x") 0 none 0 2
  exact ⟨h1.1, h1.2.1, h1.2.2.1, h2.2.2.2 (by decide)⟩

/-- C2: for records typed as the spec's `NodeRecord` (boolean-or-absent
`hidden`, numeric-or-absent `time`), the build succeeds and its
placemark count equals the number of input records whose `hidden` field
is not `true` and whose latitude and longitude are both present. -/
theorem placemark_count (now : Int) (nodes : List NodeObj)
    (hb : ∀ n ∈ nodes, hiddenBoolLike n = true)
    (hw : ∀ n ∈ nodes, wellTimed n = true) :
    ∃ doc, build_kml now nodes = some doc ∧
      doc.placemarks.length = (nodes.filter fun n => specQualifies n).length := by
  obtain ⟨pms, hpms⟩ := bp_total now nodes hw
  have hq : (nodes.filter fun n => qualifies n) = nodes.filter fun n => specQualifies n :=
    List.filter_congr fun n hn => by
      unfold qualifies specQualifies
      rw [truthy_eq_isBoolTrue (pyGet n "hidden") (hb n hn)]
  exact ⟨_, by unfold build_kml; rw [hpms],
    by simpa [hq] using bp_length now nodes pms hpms⟩

/-- Witness record list for C2: one qualifying record, one hidden
record, one record lacking coordinates. -/
def nodesC2 : List NodeObj :=
  [[("name", Json.str "R1"), ("latitude", Json.num 40), ("longitude", Json.num (-105)),
    ("keyed", Json.str "1"), ("time", Json.num 50)],
   [("name", Json.str "R3"), ("hidden", Json.bool true), ("latitude", Json.num 1),
    ("longitude", Json.num 1)],
   [("name", Json.str "R4"), ("keyed", Json.str "0"), ("time", Json.num 50)]]

/-- Witness for C2: on `nodesC2` the build succeeds and emits exactly
one placemark, matching the one qualifying record. -/
theorem placemark_count_w :
    (∃ doc, build_kml 100 nodesC2 = some doc ∧
      doc.placemarks.length = (nodesC2.filter fun n => specQualifies n).length) ∧
    (nodesC2.filter fun n => specQualifies n).length = 1 :=
  ⟨placemark_count 100 nodesC2 (by decide) (by decide), by decide⟩

/-- C6: the placemarks of a built document are exactly those of the
qualifying (non-hidden, coordinate-bearing) records, in the input
order — `List.filterMap` keeps the relative order and sorts nothing. -/
theorem placemark_order (now : Int) (nodes : List NodeObj) (doc : KmlDoc)
    (h : build_kml now nodes = some doc) :
    doc.placemarks = nodes.filterMap fun n => if qualifies n then mkPlacemark now n else none := by
  unfold build_kml at h
  rcases hpms : buildPlacemarks now nodes with _ | pms <;> rw [hpms] at h
  · cases h
  · cases h
    exact bp_filterMap now nodes pms hpms

/-- Witness record list for C6: two qualifying records around a hidden
one. -/
def nodesC6 : List NodeObj :=
  [[("name", Json.str "A"), ("latitude", Json.num 1), ("longitude", Json.num 2)],
   [("name", Json.str "H"), ("hidden", Json.bool true), ("latitude", Json.num 3),
    ("longitude", Json.num 4)],
   [("name", Json.str "B"), ("latitude", Json.num 5), ("longitude", Json.num 6)]]

/-- The junk document used to instantiate `Option.getD` in witnesses. -/
def docJunk : KmlDoc := ⟨"", "", "", "", "", []⟩

/-- Witness for C6 at a concrete input, plus the explicit check that
the two placemarks come out in input order (`"A"` before `"B"`). -/
theorem placemark_order_w :
    ((build_kml 100 nodesC6).getD docJunk).placemarks =
      (nodesC6.filterMap fun n => if qualifies n then mkPlacemark 100 n else none) ∧
    ((build_kml 100 nodesC6).getD docJunk).placemarks.map Placemark.name =
      [Json.str "A", Json.str "B"] :=
  ⟨placemark_order 100 nodesC6 ((build_kml 100 nodesC6).getD docJunk) rfl, rfl⟩

/-- C7: the defaults for missing fields when a placemark is built:
missing `keyed` is treated as `"0"` (in the icon decision; the
extended-data flag then reads `"No"`), missing `time` as `0`, missing
`name` as `"Unnamed"`, and missing `description` as the empty
string. -/
theorem missing_field_defaults (now : Int) (node : NodeObj) (pm : Placemark)
    (h : mkPlacemark now node = some pm) :
    (getOpt node "name" = none → pm.name = Json.str "Unnamed") ∧
    (getOpt node "description" = none → pm.description = Json.str "") ∧
    (getOpt node "keyed" = none →
      some pm.iconHref = icon_href now (Json.str "0") (pyGetD node "time" (Json.num 0)) ∧
      pm.keyedLabel = "No") ∧
    (getOpt node "time" = none →
      pm.lastReport = fmt_time 0 ∧
      some pm.iconHref = icon_href now (pyGetD node "keyed" (Json.str "0")) (Json.num 0)) := by
  obtain ⟨t, href, ht, hhref, hpm⟩ := mkPlacemark_inv now node pm h
  subst hpm
  refine ⟨fun hn => ?_, fun hd => ?_, fun hk => ?_, fun htm => ?_⟩
  · show pyGetD node "name" (Json.str "Unnamed") = Json.str "Unnamed"
    rw [pyGetD, hn]
    rfl
  · show pyGetD node "description" (Json.str "") = Json.str ""
    rw [pyGetD, hd]
    rfl
  · have h0 : pyGetD node "keyed" (Json.str "0") = Json.str "0" := by rw [pyGetD, hk]; rfl
    have h0' : pyGet node "keyed" = Json.null := by rw [pyGet, hk]; rfl
    rw [h0] at hhref
    exact ⟨by rw [hhref], by rw [show Placemark.keyedLabel _ =
      (if jsonEqStr (pyGet node "keyed") "1" then "Yes" else "No") from rfl, h0']; rfl⟩
  · have h0 : pyGetD node "time" (Json.num 0) = Json.num 0 := by rw [pyGetD, htm]; rfl
    rw [h0] at ht hhref
    have ht0 : t = 0 := by
      have h' : some t = some (0 : Int) := ht.symm
      exact Option.some.inj h'
    constructor
    · show fmt_time t = fmt_time 0
      rw [ht0]
    · rw [hhref]

/-- Witness node for C7 with all four fields absent. -/
def nodeC7 : NodeObj := [("latitude", Json.num 3), ("longitude", Json.num 4)]

/-- The placemark built from `nodeC7` at clock 100. -/
def pmC7 : Placemark := (mkPlacemark 100 nodeC7).getD pmJunk

/-- Witness for C7: the placemark of a node lacking `name`,
`description`, `keyed` and `time` carries every default. -/
theorem missing_field_defaults_w :
    (pmC7.name = Json.str "Unnamed") ∧
    (pmC7.description = Json.str "") ∧
    (some pmC7.iconHref = icon_href 100 (Json.str "0") (pyGetD nodeC7 "time" (Json.num 0)) ∧
      pmC7.keyedLabel = "No") ∧
    (pmC7.lastReport = fmt_time 0 ∧
      some pmC7.iconHref = icon_href 100 (pyGetD nodeC7 "keyed" (Json.str "0")) (Json.num 0)) :=
  ⟨(missing_field_defaults 100 nodeC7 pmC7 rfl).1 rfl,
   (missing_field_defaults 100 nodeC7 pmC7 rfl).2.1 rfl,
   (missing_field_defaults 100 nodeC7 pmC7 rfl).2.2.1 rfl,
   (missing_field_defaults 100 nodeC7 pmC7 rfl).2.2.2 rfl⟩

/-- C8: every emitted placemark's `Point/coordinates` text is the
longitude, the latitude, then the literal altitude `0`, joined by
commas in that order. -/
theorem coordinates_lon_lat_zero (now : Int) (nodes : List NodeObj) (doc : KmlDoc)
    (pm : Placemark) (hd : build_kml now nodes = some doc) (hpm : pm ∈ doc.placemarks) :
    ∃ n ∈ nodes, qualifies n = true ∧
      pm.coordinates = pyStr (pyGet n "longitude") ++ "," ++ pyStr (pyGet n "latitude") ++ ",0" := by
  unfold build_kml at hd
  rcases hpms : buildPlacemarks now nodes with _ | pms <;> rw [hpms] at hd
  · cases hd
  · cases hd
    have hfm := bp_filterMap now nodes pms hpms
    subst hfm
    rcases List.mem_filterMap.mp hpm with ⟨n, hn, hfn⟩
    rcases hq : qualifies n with _ | _ <;> rw [hq] at hfn
    · simp only [Bool.false_eq_true, if_false] at hfn
      cases hfn
    · simp only [if_true] at hfn
      obtain ⟨t, href, ht, hhref, hpmeq⟩ := mkPlacemark_inv now n pm hfn
      subst hpmeq
      exact ⟨n, hn, hq, rfl⟩

/-- Witness node list for C8. -/
def nodesC8 : List NodeObj :=
  [[("latitude", Json.num 5), ("longitude", Json.num 6), ("time", Json.num 0)]]

/-- The placemark built from the single node of `nodesC8` at clock
400. -/
def pmC8 : Placemark := (mkPlacemark 400 nodesC8.head!).getD pmJunk

/-- Witness for C8: the single emitted placemark reads `"6,5,0"`. -/
theorem coordinates_lon_lat_zero_w :
    (∃ n ∈ nodesC8, qualifies n = true ∧
      pmC8.coordinates =
        pyStr (pyGet n "longitude") ++ "," ++ pyStr (pyGet n "latitude") ++ ",0") ∧
    pmC8.coordinates = "6,5,0" :=
  ⟨coordinates_lon_lat_zero 400 nodesC8 ((build_kml 400 nodesC8).getD docJunk) pmC8 rfl
    (List.mem_singleton.mpr rfl), by decide⟩

/-- C9: exclusion by `hidden` follows Python truthiness, not equality
with the boolean `true`: for any coordinate-bearing record, the build
of the singleton list emits zero placemarks when the `hidden` value is
truthy (nonzero number, nonempty string such as `"false"`, nonempty
list, ...) and one placemark when it is falsy (`false`, `0`, `""`,
`null`, or absent). -/
theorem hidden_truthiness (now : Int) (node : NodeObj)
    (hlat : isNull (pyGet node "latitude") = false)
    (hlon : isNull (pyGet node "longitude") = false)
    (hw : wellTimed node = true) :
    ∃ doc, build_kml now [node] = some doc ∧
      doc.placemarks.length = if truthy (pyGet node "hidden") then 0 else 1 := by
  obtain ⟨pms, hpms⟩ := bp_total now [node] (by simpa using hw)
  refine ⟨_, by unfold build_kml; rw [hpms], ?_⟩
  have hlen := bp_length now [node] pms hpms
  rcases hh : truthy (pyGet node "hidden") with _ | _ <;>
    simp [List.filter_cons, qualifies, hh, hlat, hlon] at hlen <;>
      simp [hlen, hh]

/-- Witness node for C9 with the truthy string `"false"` as its
`hidden` value. -/
def nodeC9T : NodeObj :=
  [("hidden", Json.str "false"), ("latitude", Json.num 1), ("longitude", Json.num 2)]

/-- Witness node for C9 with `hidden` absent. -/
def nodeC9F : NodeObj := [("latitude", Json.num 1), ("longitude", Json.num 2)]

/-- Witness for C9: `hidden = "false"` (a truthy string) suppresses the
placemark; an absent `hidden` (falsy) admits it. -/
theorem hidden_truthiness_w :
    truthy (pyGet nodeC9T "hidden") = true ∧
    (∃ doc, build_kml 0 [nodeC9T] = some doc ∧
      doc.placemarks.length = if truthy (pyGet nodeC9T "hidden") then 0 else 1) ∧
    truthy (pyGet nodeC9F "hidden") = false ∧
    (∃ doc, build_kml 0 [nodeC9F] = some doc ∧
      doc.placemarks.length = if truthy (pyGet nodeC9F "hidden") then 0 else 1) :=
  ⟨by decide, hidden_truthiness 0 nodeC9T (by decide) (by decide) (by decide),
   by decide, hidden_truthiness 0 nodeC9F (by decide) (by decide) (by decide)⟩

end NGGMRS
